import Mathlib

/-!
Verification of the gloo gateway2 deployer and plugin registry
(`projects/gateway2/deployer/deployer.go` and
`projects/gateway2/translator/plugins/registry/plugin_registry.go`).

The Go code is shallowly embedded: external collaborators (the helm chart
renderer, the runtime scheme, the cluster client, the port-translation
function, the process environment) are abstracted as function-valued fields,
while every algorithm that lives in the repository itself (port derivation,
namespace and ownership stamping, manifest decoding, gvk de-duplication,
image-override parsing, plugin classification, the apply loop) is translated
directly from the source.
-/

namespace GlooGateway

/-- Kubernetes group/version/kind triple, as in apimachinery
`schema.GroupVersionKind`. -/
structure GroupVersionKind where
  group : String
  version : String
  kind : String
deriving DecidableEq

/-- Stringification of a gvk, as in apimachinery
`schema.GroupVersionKind.String()`. -/
def GroupVersionKind.gvkString (g : GroupVersionKind) : String :=
  g.group ++ "/" ++ g.version ++ ", Kind=" ++ g.kind

/-- Owner reference, as in `metav1.OwnerReference`, restricted to the fields
the deployer sets. -/
structure OwnerReference where
  kind : String
  apiVersion : String
  controller : Option Bool
  uid : String
  name : String
deriving DecidableEq

/-- Slice of `metav1.ObjectMeta` that the deployer reads or writes.  An absent
field models a key missing from the underlying object map. -/
structure ObjectMetadata where
  name : Option String
  namespc : Option String
  ownerReferences : Option (List OwnerReference)
deriving DecidableEq

/-- Metadata with every key absent. -/
def emptyMetadata : ObjectMetadata :=
  { name := none, namespc := none, ownerReferences := none }

/-- Generic representation of a decoded document, as in
`unstructured.Unstructured`.  The top-level field map is modelled by the three
well-known keys (absent when the document did not carry them) plus the
remaining raw fields. -/
structure Unstructured where
  apiVersion : Option String
  kind : Option String
  metadata : Option ObjectMetadata
  otherFields : List (String × String)
deriving DecidableEq

/-- Test corresponding to `len(obj.Object) == 0` in `ConvertYAMLToObjects`:
the document decoded to a map with no fields at all. -/
def Unstructured.objectIsEmpty (u : Unstructured) : Bool :=
  u.apiVersion.isNone && u.kind.isNone && u.metadata.isNone && u.otherFields.isEmpty

/-- Splitting of a character list at every occurrence of a separator
character; an empty input yields the single empty part. -/
def splitOnChar (sep : Char) : List Char → List (List Char)
  | [] => [[]]
  | c :: cs =>
    match splitOnChar sep cs with
    | [] => [[]]
    | h :: t => if c = sep then [] :: h :: t else (c :: h) :: t

/-- Go `strings.Split` for a one-character separator: `n` separators yield
`n + 1` parts, and the empty string yields one empty part. -/
def stringsSplit (s : String) (sep : Char) : List String :=
  (splitOnChar sep s.data).map String.mk

/-- Parsing of an apiVersion string into group and version, as in apimachinery
`schema.FromAPIVersionAndKind` (used by `GetObjectKind().GroupVersionKind()`
on an unstructured object): no slash means core group, one slash splits
group/version, anything else leaves group and version empty. -/
def fromAPIVersionAndKind (apiVersion kind : String) : GroupVersionKind :=
  match stringsSplit apiVersion '/' with
  | [v] => { group := "", version := v, kind := kind }
  | [g, v] => { group := g, version := v, kind := kind }
  | _ => { group := "", version := "", kind := kind }

/-- Gvk of an unstructured object, recovered from its apiVersion and kind
fields (empty strings when the keys are absent). -/
def Unstructured.gvk (u : Unstructured) : GroupVersionKind :=
  fromAPIVersionAndKind (u.apiVersion.getD "") (u.kind.getD "")

/-- Statically-typed Kubernetes object, reduced to the state the deployer
manipulates through the `client.Object` interface. -/
structure TypedObject where
  gvk : GroupVersionKind
  name : String
  namespc : String
  ownerReferences : List OwnerReference
deriving DecidableEq

/-- Decoded resource object, as seen through `client.Object`: either the
statically-known representation produced by the scheme or the generic
unstructured representation. -/
inductive ClientObject where
  | typed (t : TypedObject)
  | generic (u : Unstructured)
deriving DecidableEq

/-- Accessor `GetNamespace()`. -/
def ClientObject.getNamespace : ClientObject → String
  | .typed t => t.namespc
  | .generic u => ((u.metadata.getD emptyMetadata).namespc).getD ""

/-- Accessor `GetName()`. -/
def ClientObject.getName : ClientObject → String
  | .typed t => t.name
  | .generic u => ((u.metadata.getD emptyMetadata).name).getD ""

/-- Mutator `SetNamespace(ns)` (functional: returns the updated object). -/
def ClientObject.setNamespace : ClientObject → String → ClientObject
  | .typed t, n => .typed { t with namespc := n }
  | .generic u, n =>
    .generic { u with metadata := some { u.metadata.getD emptyMetadata with namespc := some n } }

/-- Accessor `GetOwnerReferences()`. -/
def ClientObject.getOwnerReferences : ClientObject → List OwnerReference
  | .typed t => t.ownerReferences
  | .generic u => ((u.metadata.getD emptyMetadata).ownerReferences).getD []

/-- Mutator `SetOwnerReferences(refs)` (functional: returns the updated
object). -/
def ClientObject.setOwnerReferences : ClientObject → List OwnerReference → ClientObject
  | .typed t, refs => .typed { t with ownerReferences := refs }
  | .generic u, refs =>
    .generic { u with metadata := some { u.metadata.getD emptyMetadata with ownerReferences := some refs } }

/-- Accessor `GetObjectKind().GroupVersionKind()`. -/
def ClientObject.gvkOf : ClientObject → GroupVersionKind
  | .typed t => t.gvk
  | .generic u => u.gvk

/-- The registered type scheme (`runtime.Scheme`), abstracted to the three
operations `ConvertYAMLToObjects` uses: whether `scheme.New(gvk)` succeeds,
whether the created object asserts to `client.Object`, and the fallible
conversion `runtime.DefaultUnstructuredConverter.FromUnstructured` into the
typed representation. -/
structure Scheme where
  hasGvk : GroupVersionKind → Bool
  isClientObject : GroupVersionKind → Bool
  fromUnstructured : Unstructured → Option TypedObject

/-- One step of the streaming multi-document decoder
(`yaml.NewYAMLOrJSONDecoder`): a document either decodes into an unstructured
value or fails with a decode error. -/
inductive Doc where
  | doc (u : Unstructured)
  | malformed (e : String)

/-- Per-document body of the decode loop in `ConvertYAMLToObjects`: try the
scheme first and keep the typed object on success; when the scheme does not
know the gvk, skip an empty document and otherwise keep the generic
representation.  `some` is an appended object, `none` a skipped document. -/
def processDoc (s : Scheme) (u : Unstructured) : Option ClientObject :=
  let gvk := u.gvk
  if s.hasGvk gvk then
    if s.isClientObject gvk then
      match s.fromUnstructured u with
      | some realObj => some (.typed realObj)
      | none => some (.generic u)
    else
      some (.generic u)
  else
    if u.objectIsEmpty then none
    else some (.generic u)

/-- Decoder `ConvertYAMLToObjects`: walk the documents of the manifest in
order; a decode error aborts the whole call with no objects returned. -/
def convertYAMLToObjects (s : Scheme) : List Doc → Except String (List ClientObject)
  | [] => .ok []
  | .malformed e :: _ => .error e
  | .doc u :: rest =>
    match convertYAMLToObjects s rest with
    | .error e => .error e
    | .ok tail =>
      match processDoc s u with
      | some o => .ok (o :: tail)
      | none => .ok tail

/-- Service port entry, as in the deployer's `gatewayPort` struct. -/
structure GatewayPort where
  port : Nat
  protocol : String
  name : String
  targetPort : Nat
deriving DecidableEq

/-- Gateway API listener, reduced to the two fields the deployer reads;
`port` is the raw `int32` `PortNumber`. -/
structure Listener where
  port : Int
  name : String
deriving DecidableEq

/-- The Go conversion `uint16(p)` of an `int32` port. -/
def toUint16 (p : Int) : Nat := (p.emod 65536).toNat

/-- Port-derivation loop of `renderChartToObjects`: iterate the listeners,
skip a listener whose (converted) port already appears in the accumulated
`gwPorts` (the `slices.IndexFunc` test), otherwise append one entry with
protocol TCP and the translated target port. -/
def makeGatewayPortsAux (translatePort : Nat → Nat) (gwPorts : List GatewayPort) :
    List Listener → List GatewayPort
  | [] => gwPorts
  | l :: rest =>
    let listenerPort := toUint16 l.port
    if gwPorts.any (fun p => p.port == listenerPort) then
      makeGatewayPortsAux translatePort gwPorts rest
    else
      makeGatewayPortsAux translatePort
        (gwPorts ++ [{ port := listenerPort, protocol := "TCP", name := l.name,
                       targetPort := translatePort listenerPort }]) rest

/-- Port derivation from a descriptor's listener list, starting from the
empty accumulator, as in `renderChartToObjects`.  `translatePort` is the
external collaborator `ports.TranslatePort`. -/
def makeGatewayPorts (translatePort : Nat → Nat) (listeners : List Listener) :
    List GatewayPort :=
  makeGatewayPortsAux translatePort [] listeners

/-- Image-override parsing `getDeployerImageValues`; `image` is the value of
the deployer-image environment variable (the empty string when unset).  The
result is the helm image value map, as an association list so that key
presence is observable. -/
def getDeployerImageValues (image : String) : List (String × String) :=
  let defaultImageValues : List (String × String) := [("tag", "")]
  if image = "" then
    defaultImageValues
  else
    let imageParts := stringsSplit image ':'
    if imageParts.length ≠ 2 then
      defaultImageValues
    else
      [("repository", imageParts.getD 0 ""), ("tag", imageParts.getD 1 "")]

/-- Process-wide deployer configuration, as in the `Inputs` struct. -/
structure Inputs where
  controllerName : String
  dev : Bool
  port : Int
  istioSDSEnabled : Bool

/-- Gateway descriptor (`api.Gateway`), reduced to the fields the deployer
reads: object metadata identity, type metadata for ownership, and the
ordered listener list. -/
structure Gateway where
  name : String
  namespc : String
  uid : String
  kind : String
  apiVersion : String
  listeners : List Listener

/-- Well-known control-plane namespace `defaults.GlooSystem`. -/
def glooSystem : String := "gloo-system"

/-- Helm value tree built by `renderChartToObjects`, with the nested map
keys flattened into record fields.  `develop` is `some true` exactly when the
`develop` key was added to the map. -/
structure HelmValues where
  controlPlaneEnabled : Bool
  gatewayEnabled : Bool
  name : String
  gatewayName : String
  ports : List GatewayPort
  serviceType : String
  istioSDSEnabled : Bool
  xdsHost : String
  xdsPort : Int
  image : List (String × String)
  develop : Option Bool
deriving DecidableEq

/-- The deployer together with its external collaborators: the scheme, the
process configuration, the helm chart render step (`client.RunWithContext`
followed by the document splitter, producing the decoder's view of the
rendered manifest, or a render error), the external `ports.TranslatePort`
function, and the deployer-image environment variable. -/
structure Deployer where
  scheme : Scheme
  inputs : Inputs
  helmChartRender : String → String → HelmValues → Except String (List Doc)
  translatePort : Nat → Nat
  imageEnv : String

/-- Go error-check idiom `if err != nil { return nil, wrap(err) }`: on error
return the (possibly wrapped) error, on success continue with the value. -/
def andThenE {ε α β : Type} (e : Except ε α) (wrap : ε → ε) (k : α → Except ε β) :
    Except ε β :=
  match e with
  | .error err => .error (wrap err)
  | .ok v => k v

/-- Rendering step `Render`: run the chart in an in-memory context and decode
the resulting manifest, wrapping either failure. -/
def Deployer.Render (d : Deployer) (name ns : String) (vals : HelmValues) :
    Except String (List ClientObject) :=
  andThenE (d.helmChartRender name ns vals)
    (fun e => "failed to render helm chart: " ++ e)
    (fun docs =>
      andThenE (convertYAMLToObjects d.scheme docs)
        (fun e => "failed to convert yaml to objects: " ++ e)
        (fun objs => .ok objs))

/-- Value derivation and rendering `renderChartToObjects`: derive the port
list and the helm values from the descriptor, render, then stamp the
descriptor's namespace onto every resulting object. -/
def Deployer.renderChartToObjects (d : Deployer) (gw : Gateway) :
    Except String (List ClientObject) :=
  let gwPorts := makeGatewayPorts d.translatePort gw.listeners
  let vals : HelmValues :=
    { controlPlaneEnabled := false
      gatewayEnabled := true
      name := gw.name
      gatewayName := gw.name
      ports := gwPorts
      serviceType := "LoadBalancer"
      istioSDSEnabled := d.inputs.istioSDSEnabled
      xdsHost := "gloo." ++ glooSystem ++ ".svc." ++ "cluster.local"
      xdsPort := d.inputs.port
      image := getDeployerImageValues d.imageEnv
      develop := if d.inputs.dev then some true else none }
  andThenE (d.Render gw.name gw.namespc vals) (fun e => e)
    (fun objs => .ok (objs.map (fun o => o.setNamespace gw.namespc)))

/-- Deploy-path object preparation `GetObjsToDeploy`: render, then replace
every object's owner references with the single controller reference to the
descriptor. -/
def Deployer.GetObjsToDeploy (d : Deployer) (gw : Gateway) :
    Except String (List ClientObject) :=
  andThenE (d.renderChartToObjects gw)
    (fun e => "failed to get objects to deploy: " ++ e)
    (fun objs =>
      .ok (objs.map (fun o => o.setOwnerReferences
        [{ kind := gw.kind, apiVersion := gw.apiVersion, controller := some true,
           uid := gw.uid, name := gw.name }])))

/-- Gvk-collection loop of `GetGvksToWatch`: append each object's gvk unless
it is already contained in the accumulator (the `slices.Contains` test). -/
def gvksToWatchAux (ret : List GroupVersionKind) :
    List ClientObject → List GroupVersionKind
  | [] => ret
  | obj :: rest =>
    let gvk := obj.gvkOf
    if gvk ∈ ret then gvksToWatchAux ret rest
    else gvksToWatchAux (ret ++ [gvk]) rest

/-- Watched-kind discovery `GetGvksToWatch`: render against the synthetic
gateway named `default` in namespace `default` with no listeners, then collect
the distinct gvks of the resulting objects. -/
def Deployer.GetGvksToWatch (d : Deployer) : Except String (List GroupVersionKind) :=
  let fakeGw : Gateway :=
    { name := "default", namespc := "default", uid := "", kind := "",
      apiVersion := "", listeners := [] }
  andThenE (d.renderChartToObjects fakeGw) (fun e => e)
    (fun objs => .ok (gvksToWatchAux [] objs))

/-- Apply loop `DeployObjs`.  The cluster client is abstracted as a state
transformer `patch` (server-side apply of one object under a field owner,
returning the new cluster state or a patch error); the loop threads the
cluster state and stops at the first failure, returning the state reached so
far together with the wrapped error naming the failing object's gvk and
name. -/
def Deployer.DeployObjs {σ : Type} (d : Deployer)
    (patch : σ → ClientObject → String → Except String σ) (cluster : σ) :
    List ClientObject → σ × Option String
  | [] => (cluster, none)
  | obj :: rest =>
    match patch cluster obj d.inputs.controllerName with
    | .error e =>
      (cluster, some ("failed to apply object " ++ obj.gvkOf.gvkString ++ " "
        ++ obj.getName ++ ": " ++ e))
    | .ok cluster2 => d.DeployObjs patch cluster2 rest

/-- Sequencing of successful patches: the cluster state reached by applying a
list of objects one by one under a fixed field owner, or the first patch
error. -/
def patchAll {σ : Type} (patch : σ → ClientObject → String → Except String σ)
    (owner : String) (cluster : σ) : List ClientObject → Except String σ
  | [] => .ok cluster
  | obj :: rest =>
    match patch cluster obj owner with
    | .error e => .error e
    | .ok cluster2 => patchAll patch owner cluster2 rest

/-- Specification-side first-occurrence de-duplication: keep each element's
first occurrence, in order of first appearance.  Stated from the spec's words
for comparison with the accumulator loop of `GetGvksToWatch`. -/
def dedupFirstOccurrence {α : Type} [DecidableEq α] : List α → List α
  | [] => []
  | a :: l => a :: dedupFirstOccurrence (l.filter (fun b => b ≠ a))
termination_by l => l.length
decreasing_by simpa using Nat.lt_succ_of_le (List.length_filter_le _ _)

/-- Translator plugin, modelled by its identity plus the two capability
tests that the Go code performs as dynamic type assertions
(`plugin.(plugins.RoutePlugin)` and `plugin.(plugins.PostTranslationPlugin)`). -/
structure Plugin where
  id : String
  isRoutePlugin : Bool
  isPostTranslationPlugin : Bool
deriving DecidableEq

/-- The `PluginRegistry` struct: the two capability-specific collections. -/
structure PluginRegistry where
  routePlugins : List Plugin
  postTranslationPlugins : List Plugin
deriving DecidableEq

/-- Accessor `GetRoutePlugins`. -/
def PluginRegistry.GetRoutePlugins (p : PluginRegistry) : List Plugin :=
  p.routePlugins

/-- Accessor `GetPostTranslationPlugins`. -/
def PluginRegistry.GetPostTranslationPlugins (p : PluginRegistry) : List Plugin :=
  p.postTranslationPlugins

/-- Classification loop of `NewPluginRegistry`: one pass over the input,
appending the plugin to each collection whose capability test succeeds. -/
def newPluginRegistryAux (routePlugins postTranslationPlugins : List Plugin) :
    List Plugin → PluginRegistry
  | [] => { routePlugins := routePlugins, postTranslationPlugins := postTranslationPlugins }
  | plugin :: rest =>
    let routePlugins2 := if plugin.isRoutePlugin then routePlugins ++ [plugin] else routePlugins
    let postPlugins2 :=
      if plugin.isPostTranslationPlugin then postTranslationPlugins ++ [plugin]
      else postTranslationPlugins
    newPluginRegistryAux routePlugins2 postPlugins2 rest

/-- Registry construction `NewPluginRegistry`. -/
def NewPluginRegistry (allPlugins : List Plugin) : PluginRegistry :=
  newPluginRegistryAux [] [] allPlugins

/-! ## Shared lemmas -/

/-- Fallback behaviour of image-override parsing: an absent value or a value
that does not split into exactly two colon-separated parts yields the default
map. -/
theorem getDeployerImageValues_default (image : String)
    (h : image = "" ∨ (stringsSplit image ':').length ≠ 2) :
    getDeployerImageValues image = [("tag", "")] := by
  by_cases he : image = ""
  · simp [getDeployerImageValues, he]
  · rcases h with h | h
    · exact absurd h he
    · simp [getDeployerImageValues, he, h]

/-- Classification loop invariant of `newPluginRegistryAux`: starting from
accumulators `r` and `q`, the loop appends exactly the plugins passing each
capability test, preserving their relative order. -/
theorem newPluginRegistryAux_spec (r q ps : List Plugin) :
    newPluginRegistryAux r q ps =
      { routePlugins := r ++ ps.filter (fun p => p.isRoutePlugin),
        postTranslationPlugins := q ++ ps.filter (fun p => p.isPostTranslationPlugin) } := by
  induction ps generalizing r q with
  | nil => simp [newPluginRegistryAux]
  | cons p rest ih =>
    cases h1 : p.isRoutePlugin <;> cases h2 : p.isPostTranslationPlugin <;>
      simp [newPluginRegistryAux, h1, h2, ih, List.filter_cons]

/-- Reading back a namespace just stamped onto an object. -/
theorem getNamespace_setNamespace (o : ClientObject) (n : String) :
    (o.setNamespace n).getNamespace = n := by
  cases o <;> simp [ClientObject.setNamespace, ClientObject.getNamespace]

/-- Reading back owner references just stamped onto an object. -/
theorem getOwnerReferences_setOwnerReferences (o : ClientObject)
    (refs : List OwnerReference) :
    (o.setOwnerReferences refs).getOwnerReferences = refs := by
  cases o <;> simp [ClientObject.setOwnerReferences, ClientObject.getOwnerReferences]

/-- Stamping owner references leaves the namespace unchanged. -/
theorem getNamespace_setOwnerReferences (o : ClientObject)
    (refs : List OwnerReference) :
    (o.setOwnerReferences refs).getNamespace = o.getNamespace := by
  cases o <;> simp [ClientObject.setOwnerReferences, ClientObject.getNamespace]

/-- Inversion of the Go error-check idiom on success. -/
theorem andThenE_eq_ok {ε α β : Type} (e : Except ε α) (wrap : ε → ε)
    (k : α → Except ε β) (b : β) (h : andThenE e wrap k = .ok b) :
    ∃ a, e = .ok a ∧ k a = .ok b := by
  cases e with
  | error err => simp [andThenE] at h
  | ok a => exact ⟨a, rfl, h⟩

/-- Shape of a successful `renderChartToObjects` result: every returned object
is a rendered object with the descriptor's namespace stamped on. -/
theorem exists_of_renderChartToObjects_ok (d : Deployer) (gw : Gateway)
    (objs : List ClientObject) (h : d.renderChartToObjects gw = .ok objs) :
    ∃ objs0 : List ClientObject,
      objs = objs0.map (fun o => o.setNamespace gw.namespc) := by
  simp only [Deployer.renderChartToObjects] at h
  obtain ⟨objs0, -, hk⟩ := andThenE_eq_ok _ _ _ _ h
  exact ⟨objs0, (Except.ok.inj hk).symm⟩

/-- Shape of a successful `GetObjsToDeploy` result: the rendered objects with
the single controller owner reference stamped on. -/
theorem exists_of_getObjsToDeploy_ok (d : Deployer) (gw : Gateway)
    (objs : List ClientObject) (h : d.GetObjsToDeploy gw = .ok objs) :
    ∃ objs1 : List ClientObject, d.renderChartToObjects gw = .ok objs1 ∧
      objs = objs1.map (fun o => o.setOwnerReferences
        [{ kind := gw.kind, apiVersion := gw.apiVersion, controller := some true,
           uid := gw.uid, name := gw.name }]) := by
  simp only [Deployer.GetObjsToDeploy] at h
  obtain ⟨objs1, he, hk⟩ := andThenE_eq_ok _ _ _ _ h
  exact ⟨objs1, he, (Except.ok.inj hk).symm⟩

/-- Non-empty documents are never skipped by the decode loop. -/
theorem processDoc_of_nonEmpty (s : Scheme) (u : Unstructured)
    (h : u.objectIsEmpty = false) : ∃ o, processDoc s u = some o := by
  unfold processDoc
  cases hg : s.hasGvk u.gvk
  · simp [hg, h]
  · cases hc : s.isClientObject u.gvk
    · simp [hg, hc]
    · cases hf : s.fromUnstructured u <;> simp [hg, hc, hf]

/-- Membership in the first-occurrence de-duplication implies membership in
the input. -/
theorem mem_dedupFirstOccurrence {α : Type} [DecidableEq α] (l : List α) (x : α) :
    x ∈ dedupFirstOccurrence l → x ∈ l := by
  induction l using dedupFirstOccurrence.induct with
  | case1 => simp [dedupFirstOccurrence]
  | case2 a l ih =>
    rw [dedupFirstOccurrence]
    intro hx
    rcases List.mem_cons.mp hx with rfl | hx2
    · exact List.mem_cons_self _ _
    · exact List.mem_cons_of_mem _ (List.mem_filter.mp (ih hx2)).1

/-- First-occurrence de-duplication yields a duplicate-free list. -/
theorem nodup_dedupFirstOccurrence {α : Type} [DecidableEq α] (l : List α) :
    (dedupFirstOccurrence l).Nodup := by
  induction l using dedupFirstOccurrence.induct with
  | case1 => simp [dedupFirstOccurrence]
  | case2 a l ih =>
    rw [dedupFirstOccurrence]
    refine List.nodup_cons.mpr ⟨fun ha => ?_, ih⟩
    have := List.mem_filter.mp (mem_dedupFirstOccurrence _ _ ha)
    simp at this

/-- Accumulator invariant of the gvk-collection loop: it extends the
accumulator with the first-occurrence de-duplication of the gvks not already
accumulated. -/
theorem gvksToWatchAux_eq (objs : List ClientObject) :
    ∀ ret : List GroupVersionKind,
      gvksToWatchAux ret objs =
        ret ++ dedupFirstOccurrence
          ((objs.map ClientObject.gvkOf).filter (fun g => g ∉ ret)) := by
  induction objs with
  | nil => intro ret; simp [gvksToWatchAux, dedupFirstOccurrence]
  | cons obj rest ih =>
    intro ret
    by_cases hg : obj.gvkOf ∈ ret
    · simp only [gvksToWatchAux, List.map_cons, List.filter_cons]
      rw [if_pos hg]
      have hd : (decide (obj.gvkOf ∉ ret)) = false := by simp [hg]
      rw [hd]
      simp only [Bool.false_eq_true, if_false]
      exact ih ret
    · simp only [gvksToWatchAux, List.map_cons, List.filter_cons]
      rw [if_neg hg]
      have hd : (decide (obj.gvkOf ∉ ret)) = true := by simp [hg]
      rw [hd]
      simp only [if_true]
      rw [ih (ret ++ [obj.gvkOf]), dedupFirstOccurrence, List.append_assoc,
        List.singleton_append, List.filter_filter]
      congr 3
      apply List.filter_congr
      intro x _
      by_cases h1 : x ∈ ret <;> by_cases h2 : x = obj.gvkOf <;>
        simp [h1, h2, List.mem_append]

/-- The gvk-collection loop started from the empty accumulator is exactly
first-occurrence de-duplication of the objects' gvks. -/
theorem gvksToWatch_dedup (objs : List ClientObject) :
    gvksToWatchAux [] objs = dedupFirstOccurrence (objs.map ClientObject.gvkOf) := by
  have := gvksToWatchAux_eq objs []
  simpa using this

/-! ## Concrete instances for evaluation -/

/-- Scheme that recognizes no gvk. -/
def sampleScheme : Scheme :=
  { hasGvk := fun _ => false, isClientObject := fun _ => false,
    fromUnstructured := fun _ => none }

/-- Unstructured service document with a template-assigned namespace. -/
def sampleServiceDoc : Unstructured :=
  { apiVersion := some "v1", kind := some "Service",
    metadata := some { name := some "svc", namespc := some "other",
                       ownerReferences := none },
    otherFields := [] }

/-- Document with no fields at all. -/
def emptyDocUnstructured : Unstructured :=
  { apiVersion := none, kind := none, metadata := none, otherFields := [] }

/-- Deployer whose chart renders the single sample document. -/
def sampleDeployer : Deployer :=
  { scheme := sampleScheme,
    inputs := { controllerName := "ctl", dev := false, port := 9977,
                istioSDSEnabled := false },
    helmChartRender := fun _ _ _ => .ok [.doc sampleServiceDoc],
    translatePort := fun p => p,
    imageEnv := "" }

/-- Concrete gateway descriptor. -/
def sampleGateway : Gateway :=
  { name := "gw", namespc := "ns1", uid := "uid1", kind := "Gateway",
    apiVersion := "gateway.networking.k8s.io/v1", listeners := [] }

/-- The sample document after namespace stamping against `sampleGateway`. -/
def sampleStampedService : ClientObject :=
  .generic { apiVersion := some "v1", kind := some "Service",
             metadata := some { name := some "svc", namespc := some "ns1",
                                ownerReferences := none },
             otherFields := [] }

/-- The sample document after namespace and ownership stamping. -/
def sampleOwnedService : ClientObject :=
  .generic { apiVersion := some "v1", kind := some "Service",
             metadata := some { name := some "svc", namespc := some "ns1",
                                ownerReferences := some [{ kind := "Gateway",
                                                           apiVersion := "gateway.networking.k8s.io/v1",
                                                           controller := some true,
                                                           uid := "uid1", name := "gw" }] },
             otherFields := [] }

/-- Typed representation of the sample service. -/
def sampleTypedService : TypedObject :=
  { gvk := { group := "", version := "v1", kind := "Service" }, name := "svc",
    namespc := "other", ownerReferences := [] }

/-- Scheme that recognizes the core-group Service kind and converts service
documents to `sampleTypedService`. -/
def sampleTypedScheme : Scheme :=
  { hasGvk := fun g => g == { group := "", version := "v1", kind := "Service" },
    isClientObject := fun _ => true,
    fromUnstructured := fun u =>
      if u.kind == some "Service" then some sampleTypedService else none }

/-! ## Claims -/

/-- C1: port derivation iterates the listeners in descriptor order; a listener
whose port number already appears among the accumulated entries is skipped
(first occurrence wins), and every kept listener produces exactly one entry
with the listener's port and name, protocol TCP, and the translated target
port.  In particular listeners (80, a), (80, b), (443, c) yield exactly the
entries for port 80 named a and port 443 named c, in that order. -/
theorem c1_port_derivation :
    (∀ (tp : Nat → Nat) (acc : List GatewayPort) (l : Listener) (rest : List Listener),
      (acc.any fun p => p.port == toUint16 l.port) = true →
      makeGatewayPortsAux tp acc (l :: rest) = makeGatewayPortsAux tp acc rest) ∧
    (∀ (tp : Nat → Nat) (acc : List GatewayPort) (l : Listener) (rest : List Listener),
      (acc.any fun p => p.port == toUint16 l.port) = false →
      makeGatewayPortsAux tp acc (l :: rest) =
        makeGatewayPortsAux tp
          (acc ++ [{ port := toUint16 l.port, protocol := "TCP", name := l.name,
                     targetPort := tp (toUint16 l.port) }]) rest) ∧
    (∀ tp : Nat → Nat,
      makeGatewayPorts tp [⟨80, "a"⟩, ⟨80, "b"⟩, ⟨443, "c"⟩] =
        [⟨80, "TCP", "a", tp 80⟩, ⟨443, "TCP", "c", tp 443⟩]) := by
  refine ⟨?_, ?_, ?_⟩
  · intro tp acc l rest h
    simp [makeGatewayPortsAux, h]
  · intro tp acc l rest h
    simp [makeGatewayPortsAux, h]
  · intro tp
    rfl

/-- Witness for C1: a duplicate port 80 is skipped against an accumulated
entry, and a fresh port 443 appends exactly one TCP entry with the translated
target port. -/
theorem c1_port_derivation_witness :
    makeGatewayPortsAux (fun p => p + 1) [⟨80, "TCP", "a", 81⟩] [⟨80, "b"⟩]
        = [⟨80, "TCP", "a", 81⟩] ∧
    makeGatewayPortsAux (fun p => p + 1) [] [⟨443, "c"⟩]
        = [⟨443, "TCP", "c", 444⟩] :=
  ⟨c1_port_derivation.1 (fun p => p + 1) [⟨80, "TCP", "a", 81⟩] ⟨80, "b"⟩ [] (by decide),
   c1_port_derivation.2.1 (fun p => p + 1) [] ⟨443, "c"⟩ [] (by decide)⟩

/-- C2: every object returned by renderChartToObjects, and hence by
GetObjsToDeploy, carries the originating descriptor's namespace, regardless of
what namespace the rendered template assigned. -/
theorem c2_namespace_stamping :
    ∀ (d : Deployer) (gw : Gateway) (objs : List ClientObject),
      (d.renderChartToObjects gw = .ok objs →
        ∀ o ∈ objs, o.getNamespace = gw.namespc) ∧
      (d.GetObjsToDeploy gw = .ok objs →
        ∀ o ∈ objs, o.getNamespace = gw.namespc) := by
  intro d gw objs
  constructor
  · intro h o ho
    obtain ⟨objs0, rfl⟩ := exists_of_renderChartToObjects_ok d gw objs h
    obtain ⟨o0, -, rfl⟩ := List.mem_map.mp ho
    exact getNamespace_setNamespace o0 gw.namespc
  · intro h o ho
    obtain ⟨objs1, h1, rfl⟩ := exists_of_getObjsToDeploy_ok d gw objs h
    obtain ⟨o1, ho1, rfl⟩ := List.mem_map.mp ho
    rw [getNamespace_setOwnerReferences]
    obtain ⟨objs0, rfl⟩ := exists_of_renderChartToObjects_ok d gw objs1 h1
    obtain ⟨o0, -, rfl⟩ := List.mem_map.mp ho1
    exact getNamespace_setNamespace o0 gw.namespc

/-- C3: every object returned by GetObjsToDeploy carries exactly one owner
reference, whose kind, apiVersion, uid and name are the descriptor's and whose
controller flag is true; template-emitted owner references are replaced, never
accumulated. -/
theorem c3_ownership :
    ∀ (d : Deployer) (gw : Gateway) (objs : List ClientObject),
      d.GetObjsToDeploy gw = .ok objs →
      ∀ o ∈ objs,
        o.getOwnerReferences =
          [{ kind := gw.kind, apiVersion := gw.apiVersion, controller := some true,
             uid := gw.uid, name := gw.name }] ∧
        o.getOwnerReferences.length = 1 := by
  intro d gw objs h o ho
  obtain ⟨objs1, -, rfl⟩ := exists_of_getObjsToDeploy_ok d gw objs h
  obtain ⟨o1, -, rfl⟩ := List.mem_map.mp ho
  rw [getOwnerReferences_setOwnerReferences]
  exact ⟨rfl, rfl⟩

/-- Witness for C2: the sample deployer renders one service document with
namespace `other`, and the returned object carries the descriptor's namespace
`ns1`. -/
theorem c2_namespace_stamping_witness :
    sampleStampedService.getNamespace = "ns1" :=
  (c2_namespace_stamping sampleDeployer sampleGateway [sampleStampedService]).1 rfl
    sampleStampedService (List.mem_singleton.mpr rfl)

/-- Witness for C3: the deploy-path object carries exactly the single
controller owner reference to the sample gateway. -/
theorem c3_ownership_witness :
    sampleOwnedService.getOwnerReferences
        = [{ kind := "Gateway", apiVersion := "gateway.networking.k8s.io/v1",
             controller := some true, uid := "uid1", name := "gw" }] ∧
    sampleOwnedService.getOwnerReferences.length = 1 :=
  c3_ownership sampleDeployer sampleGateway [sampleOwnedService] rfl
    sampleOwnedService (List.mem_singleton.mpr rfl)

/-- C4: the decoder keeps one object per non-empty well-formed document in
document order: the statically-typed representation when the scheme can create
and convert to the known type for the document's gvk, otherwise the generic
representation; a non-empty document is never dropped because its type is
unrecognized. -/
theorem c4_two_tier_decoding :
    (∀ (s : Scheme) (us : List Unstructured),
      convertYAMLToObjects s (us.map Doc.doc) = .ok (us.filterMap (processDoc s))) ∧
    (∀ (s : Scheme) (us : List Unstructured),
      (∀ u ∈ us, u.objectIsEmpty = false) →
      ∃ objs, convertYAMLToObjects s (us.map Doc.doc) = .ok objs ∧
        objs.length = us.length) ∧
    (∀ (s : Scheme) (u : Unstructured) (t : TypedObject),
      s.hasGvk u.gvk = true → s.isClientObject u.gvk = true →
      s.fromUnstructured u = some t → processDoc s u = some (.typed t)) ∧
    (∀ (s : Scheme) (u : Unstructured),
      u.objectIsEmpty = false →
      (s.hasGvk u.gvk = false ∨ s.isClientObject u.gvk = false ∨
        s.fromUnstructured u = none) →
      processDoc s u = some (.generic u)) := by
  have hall : ∀ (s : Scheme) (us : List Unstructured),
      convertYAMLToObjects s (us.map Doc.doc) = .ok (us.filterMap (processDoc s)) := by
    intro s us
    induction us with
    | nil => rfl
    | cons u rest ih =>
      cases hp : processDoc s u <;>
        simp [convertYAMLToObjects, ih, List.filterMap_cons, hp]
  refine ⟨hall, ?_, ?_, ?_⟩
  · intro s us hne
    refine ⟨us.filterMap (processDoc s), hall s us, ?_⟩
    induction us with
    | nil => rfl
    | cons u rest ih =>
      obtain ⟨o, ho⟩ := processDoc_of_nonEmpty s u (hne u (by simp))
      have := ih (fun v hv => hne v (by simp [hv]))
      simp [List.filterMap_cons, ho, this]
  · intro s u t h1 h2 h3
    simp [processDoc, h1, h2, h3]
  · intro s u hne h
    unfold processDoc
    cases hg : s.hasGvk u.gvk
    · simp [hg, hne]
    · cases hc : s.isClientObject u.gvk
      · simp [hg, hc]
      · rcases h with h | h | h
        · rw [hg] at h; cases h
        · rw [hc] at h; cases h
        · simp [hg, hc, h]

/-- Witness for C4: the typed scheme materializes the service document as the
typed object, while the empty scheme keeps the generic representation. -/
theorem c4_two_tier_decoding_witness :
    processDoc sampleTypedScheme sampleServiceDoc = some (.typed sampleTypedService) ∧
    processDoc sampleScheme sampleServiceDoc = some (.generic sampleServiceDoc) :=
  ⟨c4_two_tier_decoding.2.2.1 sampleTypedScheme sampleServiceDoc sampleTypedService
      (by decide) (by decide) (by decide),
   c4_two_tier_decoding.2.2.2 sampleScheme sampleServiceDoc (by decide)
      (Or.inl (by decide))⟩

/-- C8: an empty document is dropped without producing an error or an object,
while a malformed document makes the whole decode call return the decode
error, with no objects and no partial sequence returned. -/
theorem c8_decode_errors :
    (∀ (s : Scheme) (us : List Unstructured) (e : String) (post : List Doc),
      convertYAMLToObjects s (us.map Doc.doc ++ Doc.malformed e :: post) = .error e) ∧
    (∀ (s : Scheme) (u : Unstructured) (rest : List Doc),
      u.objectIsEmpty = true → s.hasGvk u.gvk = false →
      convertYAMLToObjects s (Doc.doc u :: rest) = convertYAMLToObjects s rest) := by
  constructor
  · intro s us e post
    induction us with
    | nil => rfl
    | cons u rest ih => simp [convertYAMLToObjects, ih]
  · intro s u rest he hg
    have hp : processDoc s u = none := by simp [processDoc, hg, he]
    cases hr : convertYAMLToObjects s rest <;>
      simp [convertYAMLToObjects, hr, hp]

/-- Witness for C8: a document with no fields is skipped by the decoder under
a scheme that does not register the empty gvk. -/
theorem c8_decode_errors_witness :
    convertYAMLToObjects sampleScheme [Doc.doc emptyDocUnstructured, Doc.doc sampleServiceDoc]
        = convertYAMLToObjects sampleScheme [Doc.doc sampleServiceDoc] :=
  c8_decode_errors.2 sampleScheme emptyDocUnstructured [Doc.doc sampleServiceDoc]
    (by decide) (by decide)

/-- C5: registry construction classifies the plugins in one pass, appending a
plugin to each capability collection it belongs to, independently and in
registration order; construction is total, an empty input yields two empty
collections, and the input route-only A, both B, neither C gives route
plugins A, B and post-translation plugins B. -/
theorem c5_plugin_classification :
    (∀ allPlugins : List Plugin,
      (NewPluginRegistry allPlugins).GetRoutePlugins
          = allPlugins.filter (fun p => p.isRoutePlugin) ∧
      (NewPluginRegistry allPlugins).GetPostTranslationPlugins
          = allPlugins.filter (fun p => p.isPostTranslationPlugin)) ∧
    (NewPluginRegistry []).GetRoutePlugins = [] ∧
    (NewPluginRegistry []).GetPostTranslationPlugins = [] ∧
    (NewPluginRegistry [⟨"A", true, false⟩, ⟨"B", true, true⟩,
        ⟨"C", false, false⟩]).GetRoutePlugins
      = [⟨"A", true, false⟩, ⟨"B", true, true⟩] ∧
    (NewPluginRegistry [⟨"A", true, false⟩, ⟨"B", true, true⟩,
        ⟨"C", false, false⟩]).GetPostTranslationPlugins
      = [⟨"B", true, true⟩] := by
  refine ⟨?_, rfl, rfl, by decide, by decide⟩
  intro allPlugins
  constructor <;>
    simp [NewPluginRegistry, newPluginRegistryAux_spec,
      PluginRegistry.GetRoutePlugins, PluginRegistry.GetPostTranslationPlugins]

/-- C6: image-override parsing returns the template defaults for an absent
value, the repository/tag pair for a value splitting into exactly two
colon-separated parts, and silently falls back to the defaults in every other
case, with the four quoted examples. -/
theorem c6_image_override :
    (∀ image : String,
      ((image = "" ∨ (stringsSplit image ':').length ≠ 2) →
        getDeployerImageValues image = [("tag", "")]) ∧
      (image ≠ "" → (stringsSplit image ':').length = 2 →
        getDeployerImageValues image =
          [("repository", (stringsSplit image ':').getD 0 ""),
           ("tag", (stringsSplit image ':').getD 1 "")])) ∧
    getDeployerImageValues "myrepo:v2" = [("repository", "myrepo"), ("tag", "v2")] ∧
    getDeployerImageValues "myrepo" = [("tag", "")] ∧
    getDeployerImageValues "a:b:c" = [("tag", "")] ∧
    getDeployerImageValues "" = [("tag", "")] := by
  refine ⟨?_, by decide, by decide, by decide, by decide⟩
  intro image
  refine ⟨getDeployerImageValues_default image, ?_⟩
  intro h1 h2
  simp [getDeployerImageValues, h1, h2]

/-- Witness for C6: a value with no colon falls back to the defaults, and a
well-formed pair is split into repository and tag. -/
theorem c6_image_override_witness :
    getDeployerImageValues "repo2" = [("tag", "")] ∧
    getDeployerImageValues "r:t" = [("repository", "r"), ("tag", "t")] :=
  ⟨(c6_image_override.1 "repo2").1 (Or.inr (by decide)),
   (c6_image_override.1 "r:t").2 (by decide) (by decide)⟩

/-- C7: the apply loop patches the objects one by one in manifest order under
the configured controller name as field owner; if every patch succeeds it
returns no error, and at the first failure it stops with an error naming the
failing object's kind and name, leaving the state reached by the earlier
patches (no rollback) and never attempting the remaining objects. -/
theorem c7_apply_first_failure :
    (∀ (σ : Type) (d : Deployer) (patch : σ → ClientObject → String → Except String σ)
        (cluster final : σ) (objs : List ClientObject),
      patchAll patch d.inputs.controllerName cluster objs = .ok final →
      d.DeployObjs patch cluster objs = (final, none)) ∧
    (∀ (σ : Type) (d : Deployer) (patch : σ → ClientObject → String → Except String σ)
        (cluster mid : σ) (applied : List ClientObject) (obj : ClientObject)
        (rest : List ClientObject) (e : String),
      patchAll patch d.inputs.controllerName cluster applied = .ok mid →
      patch mid obj d.inputs.controllerName = .error e →
      d.DeployObjs patch cluster (applied ++ obj :: rest) =
        (mid, some ("failed to apply object " ++ obj.gvkOf.gvkString ++ " "
          ++ obj.getName ++ ": " ++ e))) := by
  constructor
  · intro σ d patch cluster final objs
    induction objs generalizing cluster with
    | nil =>
      intro h
      simp only [patchAll] at h
      simp [Deployer.DeployObjs, Except.ok.inj h]
    | cons obj rest ih =>
      intro h
      simp only [patchAll] at h
      cases hp : patch cluster obj d.inputs.controllerName with
      | error e => rw [hp] at h; simp at h
      | ok cluster2 =>
        rw [hp] at h
        simp only [Deployer.DeployObjs, hp]
        exact ih cluster2 h
  · intro σ d patch cluster mid applied obj rest e
    induction applied generalizing cluster with
    | nil =>
      intro h hfail
      simp only [patchAll] at h
      obtain rfl := Except.ok.inj h
      simp [Deployer.DeployObjs, hfail]
    | cons a applied ih =>
      intro h hfail
      simp only [patchAll] at h
      cases hp : patch cluster a d.inputs.controllerName with
      | error e2 => rw [hp] at h; simp at h
      | ok cluster2 =>
        rw [hp] at h
        simp only [List.cons_append, Deployer.DeployObjs, hp]
        exact ih cluster2 h hfail

/-- Cluster client used by the apply-loop witness: records applied object
names and rejects the object named bad. -/
def samplePatch : List String → ClientObject → String → Except String (List String) :=
  fun st o _ => if o.getName == "bad" then .error "boom" else .ok (st ++ [o.getName])

/-- Applied object for the witness. -/
def sampleObjA : ClientObject :=
  .typed { gvk := { group := "", version := "v1", kind := "ConfigMap" },
           name := "a", namespc := "ns1", ownerReferences := [] }

/-- Rejected object for the witness. -/
def sampleObjBad : ClientObject :=
  .typed { gvk := { group := "", version := "v1", kind := "Service" },
           name := "bad", namespc := "ns1", ownerReferences := [] }

/-- Never-attempted trailing object for the witness. -/
def sampleObjC : ClientObject :=
  .typed { gvk := { group := "", version := "v1", kind := "Service" },
           name := "c", namespc := "ns1", ownerReferences := [] }

/-- Witness for C7: a fully successful batch returns no error, and a batch
failing on its second object stops there with the wrapping error, keeping the
first object applied. -/
theorem c7_apply_first_failure_witness :
    sampleDeployer.DeployObjs samplePatch [] [sampleObjA] = (["a"], none) ∧
    sampleDeployer.DeployObjs samplePatch [] [sampleObjA, sampleObjBad, sampleObjC] =
      (["a"], some "failed to apply object /v1, Kind=Service bad: boom") :=
  ⟨c7_apply_first_failure.1 (List String) sampleDeployer samplePatch [] ["a"]
      [sampleObjA] rfl,
   c7_apply_first_failure.2 (List String) sampleDeployer samplePatch [] ["a"]
      [sampleObjA] sampleObjBad [sampleObjC] "boom" rfl rfl⟩

/-- C9: watched-kind discovery renders against a synthetic descriptor with
placeholder identity default/default and zero listeners, runs only the
render-and-decode path (no cluster apply, no owner stamping), and returns the
gvks of the resulting objects de-duplicated in order of first appearance, so
the returned list holds no duplicate triple. -/
theorem c9_watched_kind_discovery :
    (∀ d : Deployer,
      d.GetGvksToWatch =
        andThenE (d.renderChartToObjects
            { name := "default", namespc := "default", uid := "", kind := "",
              apiVersion := "", listeners := [] }) (fun e => e)
          (fun objs => .ok (gvksToWatchAux [] objs))) ∧
    (∀ objs : List ClientObject,
      gvksToWatchAux [] objs = dedupFirstOccurrence (objs.map ClientObject.gvkOf)) ∧
    (∀ (d : Deployer) (gvks : List GroupVersionKind),
      d.GetGvksToWatch = .ok gvks → gvks.Nodup) := by
  refine ⟨fun d => rfl, gvksToWatch_dedup, ?_⟩
  intro d gvks h
  simp only [Deployer.GetGvksToWatch] at h
  obtain ⟨objs, -, hk⟩ := andThenE_eq_ok _ _ _ _ h
  obtain rfl := Except.ok.inj hk
  rw [gvksToWatch_dedup]
  exact nodup_dedupFirstOccurrence _

/-- Witness for C9: the sample deployer's watched-kind list is the singleton
core-group Service gvk, and it is duplicate-free. -/
theorem c9_watched_kind_discovery_witness :
    ([{ group := "", version := "v1", kind := "Service" }] : List GroupVersionKind).Nodup :=
  c9_watched_kind_discovery.2.2 sampleDeployer
    [{ group := "", version := "v1", kind := "Service" }] rfl

/-- C10: in every fallback case of image-override parsing the returned value
map is exactly the single entry mapping tag to the empty string, and contains
no repository key. -/
theorem c10_fallback_shape :
    ∀ image : String, (image = "" ∨ (stringsSplit image ':').length ≠ 2) →
      getDeployerImageValues image = [("tag", "")] ∧
      ∀ v : String, ("repository", v) ∉ getDeployerImageValues image := by
  intro image h
  have hd := getDeployerImageValues_default image h
  refine ⟨hd, ?_⟩
  intro v
  simp [hd]

/-- Witness for C10 at the two-colon input. -/
theorem c10_fallback_shape_witness :
    getDeployerImageValues "a:b:c" = [("tag", "")] ∧
    ("repository", "x") ∉ getDeployerImageValues "a:b:c" :=
  ⟨(c10_fallback_shape "a:b:c" (Or.inr (by decide))).1,
   (c10_fallback_shape "a:b:c" (Or.inr (by decide))).2 "x"⟩

end GlooGateway
